import Mathlib

/-!
Shallow embedding of the DigitalOcean Kubernetes cloud-provider plugin
(package digitalocean: the provider file and digitalocean_volumes.go).

Go strings are modelled as Lean String values; the byte-level operations
the code uses (strings.Contains, strings.ToLower, string slicing,
strconv.Atoi, strconv.Itoa) are given executable list-based definitions
below.  All inputs are ASCII in every scenario the provider handles, so
character-level and byte-level slicing coincide.

Network effects are modelled by passing the vendor responses explicitly:
a droplet listing is an `Except String (List Droplet)` (error = transport
failure of `do.provider.Droplets.List`), and the storage API is a pair of
oracles `getVolume` / `deleteEndpoint`.  The godo SDK itself is an
external collaborator; its accessors `Droplet.PrivateIPv4` and
`Droplet.PublicIPv4` are modelled as `Option String` fields of the record
(`none` = the accessor returns an error, i.e. the address is not
available on the record).
-/

/-- Decidable equality for `Except`, used to evaluate concrete runs. -/
instance {ε α : Type} [DecidableEq ε] [DecidableEq α] : DecidableEq (Except ε α) :=
  fun x y =>
  match x, y with
  | Except.ok a, Except.ok b =>
    if h : a = b then isTrue (by rw [h])
    else isFalse (by intro hc; cases hc; exact h rfl)
  | Except.ok _, Except.error _ => isFalse (by intro hc; cases hc)
  | Except.error _, Except.ok _ => isFalse (by intro hc; cases hc)
  | Except.error a, Except.error b =>
    if h : a = b then isTrue (by rw [h])
    else isFalse (by intro hc; cases hc; exact h rfl)

/-! ## String primitives (Go byte-string operations) -/

/-- Does `pat` occur at the head of `s`?  Helper for `strings.Contains`. -/
def strStarts (pat s : List Char) : Bool :=
  match pat, s with
  | [], _ => true
  | _ :: _, [] => false
  | a :: pa, b :: sb => a == b && strStarts pa sb

/-- Does `pat` occur anywhere inside `s` (as a contiguous run)? -/
def strHasL (s pat : List Char) : Bool :=
  match s with
  | [] => pat.isEmpty
  | _ :: rest => strStarts pat s || strHasL rest pat

/-- Go `strings.Contains s pat`. -/
def strContains (s pat : String) : Bool := strHasL s.data pat.data

/-- ASCII lower-casing of one character, as Go `strings.ToLower` acts on
the ASCII droplet names and IP strings the provider handles. -/
def charLower (c : Char) : Char :=
  if 65 ≤ c.toNat && c.toNat ≤ 90 then Char.ofNat (c.toNat + 32) else c

/-- Go `strings.ToLower`. -/
def strLower (s : String) : String := String.mk (s.data.map charLower)

/-- Decimal digit value of a character, if it is one. -/
def digitVal (c : Char) : Option Nat :=
  if 48 ≤ c.toNat && c.toNat ≤ 57 then some (c.toNat - 48) else none

/-- Accumulate decimal digits; `none` on the first non-digit. -/
def parseDigits : List Char → Nat → Option Nat
  | [], acc => some acc
  | c :: cs, acc =>
    match digitVal c with
    | some d => parseDigits cs (acc * 10 + d)
    | none => none

/-- Go `strconv.Atoi`: optional sign followed by at least one decimal
digit; anything else is a syntax error.  (The 64-bit range error of the
real Atoi is not modelled; droplet IDs are small.) -/
def goAtoi (s : String) : Except String Int :=
  match s.data with
  | [] => Except.error "invalid syntax"
  | '-' :: rest =>
    match rest with
    | [] => Except.error "invalid syntax"
    | _ =>
      match parseDigits rest 0 with
      | some n => Except.ok (-(n : Int))
      | none => Except.error "invalid syntax"
  | '+' :: rest =>
    match rest with
    | [] => Except.error "invalid syntax"
    | _ =>
      match parseDigits rest 0 with
      | some n => Except.ok ((n : Int))
      | none => Except.error "invalid syntax"
  | ds =>
    match parseDigits ds 0 with
    | some n => Except.ok ((n : Int))
    | none => Except.error "invalid syntax"

/-! ## Data model -/

/-- Errors surfaced by the provider.  `transport` wraps an error coming
back from a vendor or metadata HTTP call; `notFound` is the package-level
`ErrNotFound`; `instanceNotFound` is the orchestrator-canonical
`cloudprovider.InstanceNotFound`; `volumeInUse` is
`volume.NewDeletedVolumeInUseError` (carrying the volume ID; the Go
message is `Cannot delete the volume <id>, ...attached to a node`);
`noNetworks` is the error of the godo `PrivateIPv4`/`PublicIPv4`
accessors when the address is not available on the record. -/
inductive CloudError where
  | transport (msg : String)
  | notFound
  | instanceNotFound
  | volumeInUse (volumeID : String)
  | noNetworks
  deriving DecidableEq, Repr

/-- View of a godo droplet as the provider reads it: numeric ID, name,
the two IPv4 accessors (`none` = accessor errors), and the size slug. -/
structure Droplet where
  id : Int
  name : String
  privateIPv4 : Option String
  publicIPv4 : Option String
  sizeSlug : String
  deriving DecidableEq, Repr

/-- View of a godo volume: ID, name and the attachment set `DropletIDs`. -/
structure Volume where
  id : String
  name : String
  dropletIDs : List Int
  deriving DecidableEq, Repr

/-- `doInstance`: the self-instance snapshot (local droplet ID and
region) resolved from the metadata service. -/
structure doInstance where
  dropletID : Int
  region : String
  deriving DecidableEq, Repr

/-- The `DigitalOcean` provider struct.  The godo client field is not
part of the state model (vendor calls are passed in explicitly); the
`selfDOInstance` pointer is `Option doInstance` with `none` = nil. -/
structure DigitalOcean where
  region : String
  selfDOInstance : Option doInstance
  deriving DecidableEq, Repr

/-- `Config`: the `[Global]` section (apikey, region). -/
structure Config where
  apikey : String
  region : String
  deriving DecidableEq, Repr

/-- Responses of the two fixed metadata endpoints consumed by
`buildSelfDOInstance`: `GET /metadata/v1/region` and
`GET /metadata/v1/id`.  An `Except.error` is a failed `http.Get`; the
body-read of the region response has its error ignored by the code, so a
reachable response is just its body text. -/
structure MetadataService where
  regionResp : Except String String
  idResp : Except String String
  deriving Repr

/-! ## Provider construction -/

/-- `buildSelfDOInstance` (provider file, lines 283-316): fetch the
region text, fetch the droplet ID text, `Atoi` it, and build the
snapshot.  The defensive re-invocation panic guard (lines 284-286) never
fires on the construction path and is not modelled. -/
def buildSelfDOInstance (md : MetadataService) : Except String doInstance :=
  match md.regionResp with
  | Except.error e => Except.error e
  | Except.ok dropletRegion =>
    match md.idResp with
    | Except.error e => Except.error e
    | Except.ok dropletID =>
      match goAtoi dropletID with
      | Except.error e => Except.error e
      | Except.ok intDropletID =>
        Except.ok { dropletID := intDropletID, region := dropletRegion }

/-- `newDigitalOcean` (lines 101-125).  `accountGet` is the result of the
`provider.Account.Get()` liveness check.  NOTE, faithful to the source:
line 118 binds the built snapshot to a LOCAL variable
(`selfDOInstance, err := do.buildSelfDOInstance()`); it is logged at line
122 but never assigned to the struct field, so the provider returned at
line 124 still has a nil `selfDOInstance`. -/
def newDigitalOcean (cfg : Config) (accountGet : Except String Unit)
    (md : MetadataService) : Except String DigitalOcean :=
  match accountGet with
  | Except.error e => Except.error e
  | Except.ok _ =>
    let do0 : DigitalOcean := { region := cfg.region, selfDOInstance := none }
    match buildSelfDOInstance md with
    | Except.error e => Except.error e
    | Except.ok _selfDOInstance => Except.ok do0

/-- `LocalInstanceID` (lines 237-239): `strconv.Itoa` of
`do.selfDOInstance.dropletID`.  When the pointer is nil the Go code
dereferences nil and panics; the panic is modelled as `none`. -/
def LocalInstanceID (d : DigitalOcean) : Option String :=
  match d.selfDOInstance with
  | none => none
  | some inst => some (toString inst.dropletID)

/-! ## Capability accessors (lines 127-143) -/

/-- `Instances()`: returns `(do, true)`. -/
def Instances (d : DigitalOcean) : Option DigitalOcean × Bool := (some d, true)

/-- `Zones()`: returns `(do, false)` — the provider value with a FALSE
flag (line 139). -/
def Zones (d : DigitalOcean) : Option DigitalOcean × Bool := (some d, false)

/-- `LoadBalancer()`: returns `(nil, false)`. -/
def LoadBalancer (_d : DigitalOcean) : Option DigitalOcean × Bool := (none, false)

/-- `Routes()`: returns `(nil, false)`. -/
def Routes (_d : DigitalOcean) : Option DigitalOcean × Bool := (none, false)

/-- `Clusters()`: returns `(nil, false)`. -/
def Clusters (_d : DigitalOcean) : Option DigitalOcean × Bool := (none, false)

/-! ## Instance directory -/

/-- The per-droplet body of the `findDroplet` loop (lines 168-180): for
one droplet check, in order, case-insensitive name equality, then exact
private-IPv4 equality (only when the accessor succeeds), then exact
public-IPv4 equality; move on to the next droplet only if all three
fail. -/
def findDropletLoop (name : String) : List Droplet → Except CloudError Droplet
  | [] => Except.error CloudError.notFound
  | d :: rest =>
    if strLower name == strLower d.name then
      Except.ok d
    else if (match d.privateIPv4 with
             | some ipv4 => name == ipv4
             | none => false) then
      Except.ok d
    else if (match d.publicIPv4 with
             | some ipv4 => name == ipv4
             | none => false) then
      Except.ok d
    else
      findDropletLoop name rest

/-- `findDroplet` (lines 159-182): list one page of droplets (a transport
error propagates), then scan with `findDropletLoop`; `ErrNotFound` when
the scan exhausts the page. -/
def findDroplet (listing : Except String (List Droplet)) (name : String) :
    Except CloudError Droplet :=
  match listing with
  | Except.error e => Except.error (CloudError.transport e)
  | Except.ok droplets => findDropletLoop name droplets

/-- `findDropletByFilter` (lines 183-199): list one page, then append the
name of every droplet whose name contains `filter` as a literal
substring, in listing order. -/
def findDropletByFilter (listing : Except String (List Droplet))
    (filter : String) : Except CloudError (List String) :=
  match listing with
  | Except.error e => Except.error (CloudError.transport e)
  | Except.ok droplets =>
    Except.ok (droplets.foldl
      (fun list d => if strContains d.name filter then list ++ [d.name] else list)
      [])

/-! ## Capability surface over the directory -/

/-- Node address types used by the provider (`api.NodeInternalIP`,
`api.NodeLegacyHostIP`, `api.NodeExternalIP`). -/
inductive NodeAddressType where
  | internalIP
  | legacyHostIP
  | externalIP
  deriving DecidableEq, Repr

/-- `api.NodeAddress`. -/
structure NodeAddress where
  type : NodeAddressType
  address : String
  deriving DecidableEq, Repr

/-- `NodeAddresses` (lines 200-219): find the droplet (errors propagate
unchanged), read both IPv4 accessors (an accessor error propagates
unchanged), then return internal, legacy-host (= internal), external in
that order. -/
def NodeAddresses (listing : Except String (List Droplet)) (name : String) :
    Except CloudError (List NodeAddress) :=
  match findDroplet listing name with
  | Except.error e => Except.error e
  | Except.ok droplet =>
    match droplet.privateIPv4 with
    | none => Except.error CloudError.noNetworks
    | some internalIP =>
      match droplet.publicIPv4 with
      | none => Except.error CloudError.noNetworks
      | some externalIP =>
        Except.ok
          [ { type := NodeAddressType.internalIP, address := internalIP },
            { type := NodeAddressType.legacyHostIP, address := internalIP },
            { type := NodeAddressType.externalIP, address := externalIP } ]

/-- `ExternalID` (lines 220-227): any lookup failure becomes
`cloudprovider.InstanceNotFound`; success is `strconv.Itoa(droplet.ID)`. -/
def ExternalID (listing : Except String (List Droplet)) (nodeName : String) :
    Except CloudError String :=
  match findDroplet listing nodeName with
  | Except.error _ => Except.error CloudError.instanceNotFound
  | Except.ok droplet => Except.ok (toString droplet.id)

/-- `InstanceID` (lines 229-236): same body as `ExternalID`. -/
def InstanceID (listing : Except String (List Droplet)) (nodeName : String) :
    Except CloudError String :=
  match findDroplet listing nodeName with
  | Except.error _ => Except.error CloudError.instanceNotFound
  | Except.ok droplet => Except.ok (toString droplet.id)

/-- `InstanceType` (lines 241-248): any lookup failure becomes
`cloudprovider.InstanceNotFound`; success is the size slug. -/
def InstanceType (listing : Except String (List Droplet)) (nodeName : String) :
    Except CloudError String :=
  match findDroplet listing nodeName with
  | Except.error _ => Except.error CloudError.instanceNotFound
  | Except.ok droplet => Except.ok droplet.sizeSlug

/-- `CurrentNodeName` (lines 261-268): any lookup failure becomes
`cloudprovider.InstanceNotFound`; success is the lower-cased droplet
name. -/
def CurrentNodeName (listing : Except String (List Droplet))
    (hostname : String) : Except CloudError String :=
  match findDroplet listing hostname with
  | Except.error _ => Except.error CloudError.instanceNotFound
  | Except.ok droplet => Except.ok (strLower droplet.name)

/-! ## Volume lifecycle adapter (digitalocean_volumes.go) -/

/-- `volumeIsUsed` (lines 67-76): fetch the volume (error propagates),
report whether `DropletIDs` is non-empty. -/
def volumeIsUsed (getVolume : String → Except CloudError Volume)
    (volumeID : String) : Except CloudError Bool :=
  match getVolume volumeID with
  | Except.error e => Except.error e
  | Except.ok volume =>
    if volume.dropletIDs.length > 0 then Except.ok true else Except.ok false

/-- `DeleteVolume` (lines 49-64).  The second component of the result
records whether the vendor delete endpoint
(`provider.Storage.DeleteVolume`) was invoked.  Attachment-check error
propagates without deleting; a used volume yields the volume-in-use
error without deleting; otherwise the delete endpoint runs and its
result is returned. -/
def DeleteVolume (getVolume : String → Except CloudError Volume)
    (deleteEndpoint : String → Except CloudError Unit)
    (volumeID : String) : Except CloudError Unit × Bool :=
  match volumeIsUsed getVolume volumeID with
  | Except.error e => (Except.error e, false)
  | Except.ok true => (Except.error (CloudError.volumeInUse volumeID), false)
  | Except.ok false =>
    match deleteEndpoint volumeID with
    | Except.error e => (Except.error e, true)
    | Except.ok _ => (Except.ok (), true)

/-- `AttachVolume` (lines 79-91): call the vendor attach action; on
success return the `volumeID` argument itself. -/
def AttachVolume (attach : String → Int → Except CloudError Unit)
    (instanceID : Int) (volumeID : String) : Except CloudError String :=
  match attach volumeID instanceID with
  | Except.error e => Except.error e
  | Except.ok _ => Except.ok volumeID

/-- A Go `map[string]bool` modelled by its lookup function (`none` = key
absent). -/
def mapSet (m : String → Option Bool) (k : String) (v : Bool) :
    String → Option Bool :=
  fun k' => if k' == k then some v else m k'

/-- `DisksAreAttached` (lines 170-187): initialise every queried ID to
false, then for each queried ID fetch the volume — `continue` on error —
and set the entry to true for each attachment-set member equal to
`instanceID`.  The Go function always returns a nil error alongside the
map. -/
def DisksAreAttached (getVolume : String → Except CloudError Volume)
    (volumeIDs : List String) (instanceID : Int) : String → Option Bool :=
  let attached := volumeIDs.foldl (fun m volumeID => mapSet m volumeID false)
    (fun _ => none)
  volumeIDs.foldl
    (fun m volumeID =>
      match getVolume volumeID with
      | Except.error _ => m
      | Except.ok volume =>
        volume.dropletIDs.foldl
          (fun m i => if i == instanceID then mapSet m volumeID true else m) m)
    attached

/-- `GetDevicePath` (lines 115-128): scan the `/dev/disk/by-id` listing
in order; for the first entry that CONTAINS `scsi-0DO_Volume_` anywhere
and whose byte-slice from index 16 on (`f.Name()[16:]`) is a substring of
`volumeId`, return the joined path; empty string when no entry matches.
`files` is the directory listing in the order `ioutil.ReadDir` returns. -/
def GetDevicePath (files : List String) (volumeId : String) : String :=
  match files with
  | [] => ""
  | f :: rest =>
    if strContains f "scsi-0DO_Volume_" then
      let devid := String.mk (f.data.drop 16)
      if strContains volumeId devid then
        "/dev/disk/by-id/" ++ f
      else
        GetDevicePath rest volumeId
    else
      GetDevicePath rest volumeId

/-! ## Derived predicates used to state the theorems -/

/-- The disjunction of the three per-droplet checks of the
`findDroplet` loop body. -/
def dropletMatches (name : String) (d : Droplet) : Bool :=
  (strLower name == strLower d.name) ||
  (match d.privateIPv4 with
   | some ipv4 => name == ipv4
   | none => false) ||
  (match d.publicIPv4 with
   | some ipv4 => name == ipv4
   | none => false)

/-- The per-entry test actually applied by `GetDevicePath`: the entry
CONTAINS the marker anywhere (not necessarily at the front) and the
byte-slice of the entry name from index 16 on is a substring of
`volumeId`. -/
def deviceMatches (volumeId f : String) : Bool :=
  strContains f "scsi-0DO_Volume_" && strContains volumeId (String.mk (f.data.drop 16))

/-- Expected per-volume answer of `DisksAreAttached`: false when the
lookup errors, membership of `instanceID` in the attachment set
otherwise. -/
def attachedVal (getVolume : String → Except CloudError Volume)
    (instanceID : Int) (k : String) : Bool :=
  match getVolume k with
  | Except.error _ => false
  | Except.ok v => decide (instanceID ∈ v.dropletIDs)

/-- Is an `Except` an error? -/
def isErr {ε α : Type} : Except ε α → Bool
  | Except.error _ => true
  | Except.ok _ => false

/-! ## Concrete fixtures used by witnesses and counterexamples -/

/-- Droplet matched only through its private IP. -/
def dPriv : Droplet :=
  { id := 1, name := "alpha", privateIPv4 := some "10.0.0.5",
    publicIPv4 := some "1.2.3.4", sizeSlug := "s1" }

/-- Droplet whose NAME is the queried string `10.0.0.5`. -/
def dNamed : Droplet :=
  { id := 2, name := "10.0.0.5", privateIPv4 := some "10.9.9.9",
    publicIPv4 := some "5.6.7.8", sizeSlug := "s2" }

/-- A droplet with both addresses set. -/
def dWeb : Droplet :=
  { id := 7, name := "Web-1", privateIPv4 := some "10.0.0.5",
    publicIPv4 := some "8.8.8.8", sizeSlug := "2gb" }

/-- A droplet whose private-address accessor errors. -/
def dNoPriv : Droplet :=
  { id := 8, name := "bare", privateIPv4 := none,
    publicIPv4 := some "8.8.4.4", sizeSlug := "1gb" }

/-- Listing entry `api-1`. -/
def dApi1 : Droplet :=
  { id := 11, name := "api-1", privateIPv4 := none, publicIPv4 := none, sizeSlug := "" }

/-- Listing entry `api-2`. -/
def dApi2 : Droplet :=
  { id := 12, name := "api-2", privateIPv4 := none, publicIPv4 := none, sizeSlug := "" }

/-- Listing entry `db-1`. -/
def dDb1 : Droplet :=
  { id := 13, name := "db-1", privateIPv4 := none, publicIPv4 := none, sizeSlug := "" }

/-- Storage oracle: `v1` attached to droplets 5 and 9, `v2` errors,
anything else attached to droplet 7 only. -/
def gvEx : String → Except CloudError Volume := fun idv =>
  if idv == "v1" then Except.ok { id := "v1", name := "vol1", dropletIDs := [5, 9] }
  else if idv == "v2" then Except.error (CloudError.transport "boom")
  else Except.ok { id := idv, name := "x", dropletIDs := [7] }

/-- Storage oracle for the delete witness: one volume attached to
droplet 7. -/
def gvAttached : String → Except CloudError Volume := fun idv =>
  Except.ok { id := idv, name := "n", dropletIDs := [7] }

/-- A delete endpoint that always succeeds. -/
def deOk : String → Except CloudError Unit := fun _ => Except.ok ()

/-- An attach action that always succeeds. -/
def attachOk : String → Int → Except CloudError Unit := fun _ _ => Except.ok ()

/-- Metadata responses for a healthy construction run. -/
def mdEx : MetadataService :=
  { regionResp := Except.ok "nyc1", idResp := Except.ok "123" }

/-- Config for the construction run. -/
def cfgEx : Config := { apikey := "k", region := "nyc1" }

/-- The provider value `newDigitalOcean` actually returns on the healthy
run: region set, `selfDOInstance` still nil. -/
def doEx : DigitalOcean := { region := "nyc1", selfDOInstance := none }

/-! ## C1 -/

/-- C1.  On a run where the account check passes and the metadata
service resolves region `nyc1` and droplet ID `123`, construction
succeeds and `buildSelfDOInstance` did produce the snapshot
`{dropletID := 123, region := "nyc1"}` — but the provider value
returned carries `selfDOInstance = none` (the Go code binds the
snapshot to a local variable at line 118 and never stores it), so
`LocalInstanceID` dereferences a nil pointer (modelled `none`) instead
of returning `"123"`. -/
theorem localInstanceID_nil_after_construction :
    buildSelfDOInstance mdEx = Except.ok { dropletID := 123, region := "nyc1" } ∧
    newDigitalOcean cfgEx (Except.ok ()) mdEx = Except.ok doEx ∧
    doEx.selfDOInstance = none ∧
    LocalInstanceID doEx = none := by
  refine ⟨by decide, rfl, rfl, rfl⟩

/-! ## C7 -/

/-- C7 counterexample.  The zones accessor returns the provider value
with a FALSE flag, so the zones capability group is not declared
exposed, contrary to the claim. -/
theorem zones_flag_false_cex : (Zones doEx).2 = false := rfl

/-- C7 as amended.  `Instances` returns `(provider, true)`; `Zones`
returns the provider value but with flag `false`; `LoadBalancer`,
`Routes` and `Clusters` return `(nil, false)`. -/
theorem capability_flags (d : DigitalOcean) :
    Instances d = (some d, true) ∧
    Zones d = (some d, false) ∧
    LoadBalancer d = (none, false) ∧
    Routes d = (none, false) ∧
    Clusters d = (none, false) :=
  ⟨rfl, rfl, rfl, rfl, rfl⟩

/-! ## C10 -/

/-- C10.  Whenever `AttachVolume` succeeds, the string it returns is
exactly the `volumeID` argument it was given. -/
theorem attachVolume_returns_volumeID
    (attach : String → Int → Except CloudError Unit)
    (instanceID : Int) (volumeID s : String)
    (h : AttachVolume attach instanceID volumeID = Except.ok s) :
    s = volumeID := by
  unfold AttachVolume at h
  cases hc : attach volumeID instanceID with
  | error e => rw [hc] at h; cases h
  | ok u => rw [hc] at h; cases h; rfl

/-- C10 witness: a successful attach of `volX` to droplet 3 returns
`volX`. -/
theorem attachVolume_returns_volumeID_witness :
    AttachVolume attachOk 3 "volX" = Except.ok "volX" ∧ "volX" = "volX" :=
  ⟨rfl, attachVolume_returns_volumeID attachOk 3 "volX" "volX" rfl⟩

/-! ## C3 -/

/-- C3 counterexample.  On a transport failure of the listing,
`InstanceType` does NOT pass the underlying error through: it returns
the canonical `instanceNotFound`, contrary to the claim. -/
theorem instanceType_transport_cex :
    InstanceType (Except.error "connection refused") "node" ≠
      Except.error (CloudError.transport "connection refused") ∧
    InstanceType (Except.error "connection refused") "node" =
      Except.error CloudError.instanceNotFound := by
  refine ⟨by decide, rfl⟩

/-- C3 as amended.  For every failing lookup, `ExternalID`,
`InstanceID`, `CurrentNodeName` AND `InstanceType` all normalize the
failure to the canonical `instanceNotFound`, while `NodeAddresses`
returns the underlying lookup error unchanged. -/
theorem identity_methods_error_policy
    (listing : Except String (List Droplet)) (name : String) (e : CloudError)
    (h : findDroplet listing name = Except.error e) :
    ExternalID listing name = Except.error CloudError.instanceNotFound ∧
    InstanceID listing name = Except.error CloudError.instanceNotFound ∧
    CurrentNodeName listing name = Except.error CloudError.instanceNotFound ∧
    InstanceType listing name = Except.error CloudError.instanceNotFound ∧
    NodeAddresses listing name = Except.error e := by
  refine ⟨?_, ?_, ?_, ?_, ?_⟩ <;>
    simp [ExternalID, InstanceID, CurrentNodeName, InstanceType, NodeAddresses, h]

/-- C3 witness: on the listing transport failure `boom`, the four
identity methods answer `instanceNotFound` and `NodeAddresses` answers
the wrapped transport error. -/
theorem identity_methods_error_policy_witness :
    ExternalID (Except.error "boom") "n" = Except.error CloudError.instanceNotFound ∧
    InstanceID (Except.error "boom") "n" = Except.error CloudError.instanceNotFound ∧
    CurrentNodeName (Except.error "boom") "n" = Except.error CloudError.instanceNotFound ∧
    InstanceType (Except.error "boom") "n" = Except.error CloudError.instanceNotFound ∧
    NodeAddresses (Except.error "boom") "n" =
      Except.error (CloudError.transport "boom") :=
  identity_methods_error_policy (Except.error "boom") "n"
    (CloudError.transport "boom") rfl

/-! ## C4 -/

/-- C4.  A volume whose attachment set is non-empty makes
`DeleteVolume` fail with the distinct volume-in-use error without
invoking the vendor delete endpoint; and the vendor delete endpoint is
invoked exactly when the attachment-state check succeeded and reported
an empty attachment set. -/
theorem deleteVolume_in_use_policy
    (getVolume : String → Except CloudError Volume)
    (deleteEndpoint : String → Except CloudError Unit) (volumeID : String) :
    (∀ v, getVolume volumeID = Except.ok v → v.dropletIDs ≠ [] →
      DeleteVolume getVolume deleteEndpoint volumeID =
        (Except.error (CloudError.volumeInUse volumeID), false)) ∧
    ((DeleteVolume getVolume deleteEndpoint volumeID).2 = true ↔
      ∃ v, getVolume volumeID = Except.ok v ∧ v.dropletIDs = []) := by
  constructor
  · intro v hv hne
    have hlen : v.dropletIDs.length > 0 := List.length_pos.mpr hne
    simp [DeleteVolume, volumeIsUsed, hv, hlen]
  · unfold DeleteVolume volumeIsUsed
    cases hgv : getVolume volumeID with
    | error e =>
      constructor
      · intro hfalse; cases hfalse
      · rintro ⟨v, hv, _⟩; cases hv
    | ok v =>
      by_cases hlen : v.dropletIDs.length > 0
      · simp only [if_pos hlen]
        constructor
        · intro hfalse; cases hfalse
        · rintro ⟨v', hv', hnil⟩
          cases hv'
          rw [hnil] at hlen; cases hlen
      · have hnil : v.dropletIDs = [] := by
          cases hl : v.dropletIDs with
          | nil => rfl
          | cons a as => rw [hl] at hlen; exact absurd (by simp) hlen
        simp only [if_neg hlen]
        cases deleteEndpoint volumeID with
        | error e => exact ⟨fun _ => ⟨v, rfl, hnil⟩, fun _ => rfl⟩
        | ok u => exact ⟨fun _ => ⟨v, rfl, hnil⟩, fun _ => rfl⟩

/-- C4 witness: deleting a volume attached to droplet 7 yields the
volume-in-use error and the delete endpoint is not called. -/
theorem deleteVolume_in_use_policy_witness :
    DeleteVolume gvAttached deOk "vol" =
      (Except.error (CloudError.volumeInUse "vol"), false) :=
  (deleteVolume_in_use_policy gvAttached deOk "vol").1
    { id := "vol", name := "n", dropletIDs := [7] } rfl (by decide)

/-! ## C6 -/

/-- C6.  When the droplet is found and both IPv4 accessors succeed,
`NodeAddresses` returns exactly the three addresses
[internal, legacy-host alias of internal, external] in that fixed
order; when the droplet is not found, or either accessor fails (the
address is not available on the record), `NodeAddresses` fails. -/
theorem nodeAddresses_fixed_order
    (listing : Except String (List Droplet)) (name : String) :
    (∀ d priv pub, findDroplet listing name = Except.ok d →
      d.privateIPv4 = some priv → d.publicIPv4 = some pub →
      NodeAddresses listing name = Except.ok
        [ { type := NodeAddressType.internalIP, address := priv },
          { type := NodeAddressType.legacyHostIP, address := priv },
          { type := NodeAddressType.externalIP, address := pub } ]) ∧
    (∀ e, findDroplet listing name = Except.error e →
      isErr (NodeAddresses listing name) = true) ∧
    (∀ d, findDroplet listing name = Except.ok d →
      d.privateIPv4 = none ∨ d.publicIPv4 = none →
      isErr (NodeAddresses listing name) = true) := by
  refine ⟨?_, ?_, ?_⟩
  · intro d priv pub hd hpriv hpub
    simp [NodeAddresses, hd, hpriv, hpub]
  · intro e he
    simp [NodeAddresses, he, isErr]
  · intro d hd hnone
    cases hnone with
    | inl h => simp [NodeAddresses, hd, h, isErr]
    | inr h =>
      cases hp : d.privateIPv4 with
      | none => simp [NodeAddresses, hd, hp, isErr]
      | some priv => simp [NodeAddresses, hd, hp, h, isErr]

/-- C6 witness: on a listing holding `Web-1` (private `10.0.0.5`,
public `8.8.8.8`), `NodeAddresses "web-1"` is the fixed three-address
list; on the same listing a query for an absent name fails, and a
droplet with an unavailable private address fails. -/
theorem nodeAddresses_fixed_order_witness :
    NodeAddresses (Except.ok [dWeb]) "web-1" = Except.ok
      [ { type := NodeAddressType.internalIP, address := "10.0.0.5" },
        { type := NodeAddressType.legacyHostIP, address := "10.0.0.5" },
        { type := NodeAddressType.externalIP, address := "8.8.8.8" } ] ∧
    isErr (NodeAddresses (Except.ok [dWeb]) "absent") = true ∧
    isErr (NodeAddresses (Except.ok [dNoPriv]) "bare") = true := by
  refine ⟨?_, ?_, ?_⟩
  · exact (nodeAddresses_fixed_order (Except.ok [dWeb]) "web-1").1
      dWeb "10.0.0.5" "8.8.8.8" (by decide) rfl rfl
  · exact (nodeAddresses_fixed_order (Except.ok [dWeb]) "absent").2.1
      CloudError.notFound (by decide)
  · exact (nodeAddresses_fixed_order (Except.ok [dNoPriv]) "bare").2.2
      dNoPriv (by decide) (Or.inl rfl)

/-! ## C2 -/

/-- The scan of `findDropletLoop` returns the first droplet, in listing
order, that passes any of the three per-droplet checks. -/
theorem findDropletLoop_eq_find (name : String) (droplets : List Droplet) :
    findDropletLoop name droplets =
      match droplets.find? (dropletMatches name) with
      | some d => Except.ok d
      | none => Except.error CloudError.notFound := by
  induction droplets with
  | nil => rfl
  | cons d rest ih =>
    cases h1 : (strLower name == strLower d.name) with
    | true =>
      have hm : dropletMatches name d = true := by simp [dropletMatches, h1]
      simp [findDropletLoop, h1, List.find?_cons_of_pos _ hm]
    | false =>
      cases h2 : (match d.privateIPv4 with
                  | some ipv4 => name == ipv4
                  | none => false) with
      | true =>
        have hm : dropletMatches name d = true := by simp [dropletMatches, h2]
        simp [findDropletLoop, h1, h2, List.find?_cons_of_pos _ hm]
      | false =>
        cases h3 : (match d.publicIPv4 with
                    | some ipv4 => name == ipv4
                    | none => false) with
        | true =>
          have hm : dropletMatches name d = true := by simp [dropletMatches, h3]
          simp [findDropletLoop, h1, h2, h3, List.find?_cons_of_pos _ hm]
        | false =>
          have hm : dropletMatches name d = false := by
            simp [dropletMatches, h1, h2, h3]
          have hneg : ¬ dropletMatches name d = true := by simp [hm]
          simp [findDropletLoop, h1, h2, h3, ih, List.find?_cons_of_neg _ hneg]

/-- C2 counterexample.  Listing `[dPriv, dNamed]` queried with
`10.0.0.5`: the name of `dNamed` equals the query (case-insensitively),
yet `findDroplet` returns `dPriv`, whose PRIVATE IP matched first in
listing order — so a name match against some instance does NOT take
global priority over a private-IP match against another. -/
theorem findDroplet_global_priority_cex :
    findDroplet (Except.ok [dPriv, dNamed]) "10.0.0.5" = Except.ok dPriv ∧
    strLower dNamed.name = strLower "10.0.0.5" ∧
    strLower dPriv.name ≠ strLower "10.0.0.5" := by
  refine ⟨by decide, by decide, by decide⟩

/-- C2 as amended.  `findDroplet` scans the listing in order and
returns the FIRST droplet matching any of the three keys, where each
droplet is checked for case-insensitive name, then exact private IPv4,
then exact public IPv4 (priority per droplet, not global); `notFound`
when no droplet matches, and a listing transport error is wrapped and
propagated. -/
theorem findDroplet_first_match_scan (droplets : List Droplet) (name : String) :
    (findDroplet (Except.ok droplets) name =
      match droplets.find? (dropletMatches name) with
      | some d => Except.ok d
      | none => Except.error CloudError.notFound) ∧
    (∀ e, findDroplet (Except.error e) name =
      Except.error (CloudError.transport e)) :=
  ⟨findDropletLoop_eq_find name droplets, fun _ => rfl⟩

/-! ## C8 -/

/-- `GetDevicePath` is the first directory entry passing
`deviceMatches`, joined to the directory, else the empty string. -/
theorem getDevicePath_eq_find (files : List String) (volumeId : String) :
    GetDevicePath files volumeId =
      match files.find? (deviceMatches volumeId) with
      | some f => "/dev/disk/by-id/" ++ f
      | none => "" := by
  induction files with
  | nil => rfl
  | cons f rest ih =>
    cases h1 : strContains f "scsi-0DO_Volume_" with
    | true =>
      cases h2 : strContains volumeId (String.mk (f.data.drop 16)) with
      | true =>
        have hm : deviceMatches volumeId f = true := by simp [deviceMatches, h1, h2]
        simp [GetDevicePath, h1, h2, List.find?_cons_of_pos _ hm]
      | false =>
        have hm : deviceMatches volumeId f = false := by simp [deviceMatches, h1, h2]
        have hneg : ¬ deviceMatches volumeId f = true := by simp [hm]
        simp [GetDevicePath, h1, h2, ih, List.find?_cons_of_neg _ hneg]
    | false =>
      have hm : deviceMatches volumeId f = false := by simp [deviceMatches, h1]
      have hneg : ¬ deviceMatches volumeId f = true := by simp [hm]
      simp [GetDevicePath, h1, ih, List.find?_cons_of_neg _ hneg]

/-- C8 counterexample.  The directory entry `Ascsi-0DO_Volume_b` does
NOT have `scsi-0DO_Volume_` as a prefix, so under the claim no entry
matches and the result should be `""`; the code, which tests
`strings.Contains` and slices unconditionally at byte 16, returns the
joined path for it (queried volume ID `vol_b` contains the slice
`_b`). -/
theorem getDevicePath_contains_cex :
    GetDevicePath ["Ascsi-0DO_Volume_b"] "vol_b" =
      "/dev/disk/by-id/Ascsi-0DO_Volume_b" ∧
    strStarts "scsi-0DO_Volume_".data "Ascsi-0DO_Volume_b".data = false := by
  refine ⟨by decide, by decide⟩

/-- C8 as amended.  `GetDevicePath` returns the directory path joined
with the first entry whose name CONTAINS `scsi-0DO_Volume_` anywhere
and whose byte-slice from index 16 on is a substring of the queried
volume ID; when no entry passes that test it returns the empty string.
(For an entry that has the marker as a prefix the slice is exactly the
suffix after the marker, which is the claim's example.) -/
theorem getDevicePath_first_contains_match (files : List String) (volumeId : String) :
    (GetDevicePath files volumeId =
      match files.find? (deviceMatches volumeId) with
      | some f => "/dev/disk/by-id/" ++ f
      | none => "") ∧
    GetDevicePath ["scsi-0DO_Volume_abc123"] "do-volume-abc123-extra" =
      "/dev/disk/by-id/scsi-0DO_Volume_abc123" ∧
    GetDevicePath ["scsi-0DO_Volume_zzz"] "do-volume-abc123-extra" = "" :=
  ⟨getDevicePath_eq_find files volumeId, by decide, by decide⟩

/-! ## C9 -/

/-- Accumulator form of the `findDropletByFilter` loop: the appends
produce the filtered names in listing order. -/
theorem foldl_append_filter (p : Droplet → Bool) (l : List Droplet)
    (acc : List String) :
    l.foldl (fun list d => if p d then list ++ [d.name] else list) acc =
      acc ++ (l.filter p).map Droplet.name := by
  induction l generalizing acc with
  | nil => simp
  | cons d rest ih =>
    cases h : p d with
    | true => simp [List.foldl, h, ih, List.filter_cons]
    | false => simp [List.foldl, h, ih, List.filter_cons]

/-- C9.  `findDropletByFilter` returns exactly the names of the
droplets whose name contains the filter as a literal case-sensitive
substring, in listing order; in particular the listing
`[api-1, api-2, db-1]` filtered by `api` yields `[api-1, api-2]`.  A
listing transport error is wrapped and propagated. -/
theorem findDropletByFilter_substring (droplets : List Droplet) (filter : String) :
    (findDropletByFilter (Except.ok droplets) filter =
      Except.ok
        ((droplets.filter (fun d => strContains d.name filter)).map Droplet.name)) ∧
    (∀ e, findDropletByFilter (Except.error e) filter =
      Except.error (CloudError.transport e)) ∧
    findDropletByFilter (Except.ok [dApi1, dApi2, dDb1]) "api" =
      Except.ok ["api-1", "api-2"] := by
  refine ⟨?_, fun _ => rfl, by decide⟩
  simp [findDropletByFilter, foldl_append_filter]

/-! ## C5 -/

/-- Lookup after the inner attachment loop of `DisksAreAttached`: the
entry for `vid` becomes true exactly when `instanceID` occurs in the
attachment list; every other entry is untouched. -/
theorem innerFold_lookup (instanceID : Int) (vid k : String) (l : List Int)
    (m : String → Option Bool) :
    (l.foldl (fun m i => if i == instanceID then mapSet m vid true else m) m) k =
      if k = vid ∧ instanceID ∈ l then some true else m k := by
  induction l generalizing m with
  | nil => simp
  | cons i rest ih =>
    simp only [List.foldl]
    rw [ih]
    by_cases hk : k = vid
    · subst hk
      by_cases hi : i = instanceID
      · subst hi
        simp [mapSet]
      · have hi2 : instanceID ≠ i := fun hc => hi hc.symm
        simp [mapSet, hi, hi2, List.mem_cons]
    · by_cases hi : i = instanceID
      · simp [mapSet, hk, hi]
      · simp [mapSet, hk, hi]

/-- Lookup after the outer loop of `DisksAreAttached`: an entry becomes
true exactly when its ID was queried and its lookup succeeded with
`instanceID` in the attachment set; other entries are untouched. -/
theorem outerFold_lookup (getVolume : String → Except CloudError Volume)
    (instanceID : Int) (ids : List String)
    (m : String → Option Bool) (k : String) :
    (ids.foldl
      (fun m volumeID =>
        match getVolume volumeID with
        | Except.error _ => m
        | Except.ok volume =>
          volume.dropletIDs.foldl
            (fun m i => if i == instanceID then mapSet m volumeID true else m) m)
      m) k =
      if k ∈ ids ∧ attachedVal getVolume instanceID k = true then some true
      else m k := by
  induction ids generalizing m with
  | nil => simp
  | cons vid rest ih =>
    simp only [List.foldl]
    rw [ih]
    have hstep : (match getVolume vid with
        | Except.error _ => m
        | Except.ok volume =>
          volume.dropletIDs.foldl
            (fun m i => if i == instanceID then mapSet m vid true else m) m) k =
        if k = vid ∧ attachedVal getVolume instanceID k = true then some true
        else m k := by
      by_cases hk : k = vid
      · subst hk
        cases hgv : getVolume k with
        | error e => simp [attachedVal, hgv]
        | ok v =>
          simp only [innerFold_lookup]
          simp [attachedVal, hgv]
      · cases hgv : getVolume vid with
        | error e => simp [hk]
        | ok v =>
          simp only [innerFold_lookup]
          simp [hk]
    rw [hstep]
    by_cases hav : attachedVal getVolume instanceID k = true
    · by_cases hk : k = vid
      · subst hk
        simp [hav]
      · simp [hav, hk, List.mem_cons]
    · simp [hav]

/-- Lookup after the initialisation loop of `DisksAreAttached`: every
queried ID maps to false; other keys are untouched. -/
theorem initFold_lookup (ids : List String) (m : String → Option Bool)
    (k : String) :
    (ids.foldl (fun m volumeID => mapSet m volumeID false) m) k =
      if k ∈ ids then some false else m k := by
  induction ids generalizing m with
  | nil => simp
  | cons vid rest ih =>
    simp only [List.foldl]
    rw [ih]
    by_cases hk : k = vid
    · simp [hk, mapSet]
    · simp [hk, mapSet, List.mem_cons]

/-- C5.  The map `DisksAreAttached` returns holds an entry for exactly
the queried volume IDs; a queried volume whose lookup errored is marked
false rather than propagating the error, and a queried volume whose
lookup succeeded is marked true exactly when `instanceID` is a member
of its attachment set. -/
theorem disksAreAttached_best_effort
    (getVolume : String → Except CloudError Volume)
    (volumeIDs : List String) (instanceID : Int) (k : String) :
    (k ∈ volumeIDs →
      DisksAreAttached getVolume volumeIDs instanceID k =
        some (match getVolume k with
              | Except.error _ => false
              | Except.ok v => decide (instanceID ∈ v.dropletIDs))) ∧
    (k ∉ volumeIDs → DisksAreAttached getVolume volumeIDs instanceID k = none) := by
  have hmain : DisksAreAttached getVolume volumeIDs instanceID k =
      if k ∈ volumeIDs ∧ attachedVal getVolume instanceID k = true then some true
      else if k ∈ volumeIDs then some false else none := by
    unfold DisksAreAttached
    rw [outerFold_lookup, initFold_lookup]
  have hval : (match getVolume k with
      | Except.error _ => false
      | Except.ok v => decide (instanceID ∈ v.dropletIDs)) =
      attachedVal getVolume instanceID k := rfl
  constructor
  · intro hmem
    rw [hmain, hval]
    cases hav : attachedVal getVolume instanceID k with
    | true => simp [hmem, hav]
    | false => simp [hmem, hav]
  · intro hmem
    rw [hmain]
    simp [hmem]

/-- C5 witness: over the oracle `gvEx` with queried IDs
`[v1, v2, v3]` and instance 5, `v1` (attachment set containing 5) maps
to true, `v2` (lookup error) maps to false, `v3` (attachment set not
containing 5) maps to false, and an unqueried key is absent. -/
theorem disksAreAttached_best_effort_witness :
    DisksAreAttached gvEx ["v1", "v2", "v3"] 5 "v1" = some true ∧
    DisksAreAttached gvEx ["v1", "v2", "v3"] 5 "v2" = some false ∧
    DisksAreAttached gvEx ["v1", "v2", "v3"] 5 "v3" = some false ∧
    DisksAreAttached gvEx ["v1", "v2", "v3"] 5 "zz" = none := by
  refine ⟨?_, ?_, ?_, ?_⟩
  · exact ((disksAreAttached_best_effort gvEx ["v1", "v2", "v3"] 5 "v1").1
      (by decide)).trans (by decide)
  · exact ((disksAreAttached_best_effort gvEx ["v1", "v2", "v3"] 5 "v2").1
      (by decide)).trans (by decide)
  · exact ((disksAreAttached_best_effort gvEx ["v1", "v2", "v3"] 5 "v3").1
      (by decide)).trans (by decide)
  · exact (disksAreAttached_best_effort gvEx ["v1", "v2", "v3"] 5 "zz").2
      (by decide)
